import Mathlib

/-!
Verification of the `lazyls` application-state core against its source.

The definitions below are a shallow embedding of the Go source files
`state.go`, `handlers.go` and `core.go`: Go `int`/`int64` values are
modelled as `Int` (no overflow is reachable in any claim), Go strings as
Lean `String`, Go `error` values as an inductive `GoErr`, Go `nil` errors
as `Option.none`, and each state-mutating method as a function from the
state to the new state (plus its returned value where the method returns
one).  Display-only data (the Nerd-Font `Icon` field of `FileInfo`) and
the non-comparable Go function pointer `ActionFn` of `ActionMenuItem` are
omitted from the embedded records: no behaviour embedded here reads them
(the menu dispatch in `handleMenuSelect` branches on the `Label` string,
which is kept).  File-system reads, the `filepath.WalkDir` driver and the
git queries are external collaborators; their results enter the embedded
code as parameters, and the `WalkDir` driver is reproduced from its
documented contract so that the walk callback of `calculateStats` can be
embedded faithfully.
-/

namespace LazyLs

/-- Viewport state of one list: the selected absolute index (`cursorY`)
and the first visible index (`originY`), mirroring the per-list
`*CursorY` / `*OriginY` field pairs of `AppState` in `state.go`. -/
structure VPState where
  cursor : Int
  origin : Int
deriving DecidableEq, Repr

/-- Core arithmetic of `AppState.moveCursorAndOrigin` (state.go lines
506-553): the part of the method after the view-name/hidden-flag switch
has selected a list and its cursor/origin pair.  `listLen` is
`len(currentList)`; returns the new pair and the `changed` flag.  The Go
method writes the new values back only when `changed` is true, which is
observationally the same as always installing the computed pair. -/
def moveCursorAndOriginCore (listLen viewHeight : Int) (st : VPState) (delta : Int) :
    VPState × Bool :=
  if listLen ≤ 0 then
    (⟨0, 0⟩, st.origin != 0 || st.cursor != 0)
  else
    let oldOriginY := st.origin
    let oldCursorY := st.cursor
    let newCursorY0 := oldCursorY + delta
    let newCursorY1 := if newCursorY0 < 0 then 0 else newCursorY0
    let newCursorY := if newCursorY1 ≥ listLen then listLen - 1 else newCursorY1
    let newOriginY0 :=
      if newCursorY < oldOriginY then newCursorY
      else if newCursorY ≥ oldOriginY + viewHeight then newCursorY - viewHeight + 1
      else oldOriginY
    let maxOriginY := if listLen - viewHeight < 0 then 0 else listLen - viewHeight
    let newOriginY1 := if newOriginY0 > maxOriginY then maxOriginY else newOriginY0
    let newOriginY := if newOriginY1 < 0 then 0 else newOriginY1
    let changed := oldCursorY != newCursorY || oldOriginY != newOriginY
    (⟨newCursorY, newOriginY⟩, changed)

/-- Core arithmetic of `AppState.setCursorAndOrigin` (state.go lines
591-636), after list selection.  `Int.tdiv` is Go's `/` on `int`
(truncation toward zero), used for `viewHeight / 2`. -/
def setCursorAndOriginCore (listLen viewHeight : Int) (st : VPState) (newCursorYIn : Int) :
    VPState × Bool :=
  if listLen ≤ 0 then
    (⟨0, 0⟩, st.origin != 0 || st.cursor != 0)
  else
    let oldOriginY := st.origin
    let oldCursorY := st.cursor
    let newCursorY0 := if newCursorYIn < 0 then 0 else newCursorYIn
    let newCursorY := if newCursorY0 ≥ listLen then listLen - 1 else newCursorY0
    let newOriginY0 :=
      if newCursorY < oldOriginY ∨ newCursorY ≥ oldOriginY + viewHeight then
        newCursorY - Int.tdiv viewHeight 2
      else oldOriginY
    let maxOriginY := if listLen - viewHeight < 0 then 0 else listLen - viewHeight
    let newOriginY1 := if newOriginY0 > maxOriginY then maxOriginY else newOriginY0
    let newOriginY := if newOriginY1 < 0 then 0 else newOriginY1
    let changed := oldCursorY != newCursorY || oldOriginY != newOriginY
    (⟨newCursorY, newOriginY⟩, changed)

/-- One navigation call on a list: a relative move (`moveCursorAndOrigin`
with a delta) or an absolute jump (`setCursorAndOrigin` with a target). -/
inductive NavOp where
  | move (delta : Int)
  | jump (target : Int)
deriving DecidableEq, Repr

/-- Apply one navigation call, keeping only the resulting pair. -/
def applyNavOp (listLen viewHeight : Int) (st : VPState) : NavOp → VPState
  | .move d => (moveCursorAndOriginCore listLen viewHeight st d).1
  | .jump t => (setCursorAndOriginCore listLen viewHeight st t).1

/-- Run a sequence of navigation calls from the reset state `(0, 0)`
(the value every cursor/origin pair has after `NewAppState`,
`SetDirectoryContents` or `ToggleHidden`). -/
def runNavOps (listLen viewHeight : Int) (ops : List NavOp) : VPState :=
  ops.foldl (applyNavOp listLen viewHeight) ⟨0, 0⟩

/-- The viewport invariant of the spec: cursor in range (both fields `0`
on an empty list), the cursor inside the window of `viewHeight` rows
starting at the origin, and the origin within `[0, max 0 (len - height)]`. -/
def NavInv (listLen viewHeight : Int) (st : VPState) : Prop :=
  (listLen ≤ 0 → st.cursor = 0 ∧ st.origin = 0) ∧
  (0 < listLen →
    0 ≤ st.cursor ∧ st.cursor < listLen ∧
    st.origin ≤ st.cursor ∧ st.cursor ≤ st.origin + viewHeight - 1 ∧
    0 ≤ st.origin ∧ st.origin ≤ max 0 (listLen - viewHeight))

instance (listLen viewHeight : Int) (st : VPState) :
    Decidable (NavInv listLen viewHeight st) := by
  unfold NavInv; infer_instance

/-- The Go clamp of an index into `[0, listLen - 1]`, as performed on the
target cursor in `setCursorAndOrigin` (state.go lines 602-608). -/
def goClampIndex (listLen t : Int) : Int :=
  if t < 0 then 0 else if t ≥ listLen then listLen - 1 else t

/-- `FileInfo` from state.go (the display-only `Icon` field omitted). -/
structure FileInfo where
  Name : String
  Path : String
  IsDir : Bool
  Size : Int
deriving DecidableEq, Repr

/-- `ActionMenuItem` from state.go, keeping the `Label` the dispatch in
`handleMenuSelect` branches on (the Go function pointer `ActionFn` has no
equality and is modelled by the separate action functions below). -/
structure ActionMenuItem where
  Label : String
deriving DecidableEq, Repr

/-- Go `error` values as built by the three `fmt.Errorf` wrap sites of
`calculateStats` in core.go (`accessing %s: %w`, `info for %s: %w`,
`walking %s: %w`) over opaque base errors from the OS. -/
inductive GoErr where
  | base (msg : String)
  | accessing (entryName : String) (inner : GoErr)
  | infoFor (entryName : String) (inner : GoErr)
  | walking (dirName : String) (inner : GoErr)
deriving DecidableEq, Repr

/-- `AppState` from state.go.  The embedded `sync.RWMutex` is the lock
acquired by every method and is not part of the data; each method below
is the state transformation it performs under the lock. -/
structure AppState where
  cwd : String
  visibleFiles : List FileInfo
  visibleDirs : List FileInfo
  hiddenFiles : List FileInfo
  hiddenDirs : List FileInfo
  showHidden : Bool
  totalSize : Int
  largestFile : FileInfo
  gitStatus : String
  isLoadingStats : Bool
  statsError : Option GoErr
  visibleFoldersOriginY : Int
  visibleFilesOriginY : Int
  hiddenFoldersOriginY : Int
  hiddenFilesOriginY : Int
  visibleFoldersCursorY : Int
  visibleFilesCursorY : Int
  hiddenFoldersCursorY : Int
  hiddenFilesCursorY : Int
  isActionMenuVisible : Bool
  actionMenuItemTarget : FileInfo
  actionMenuOptions : List ActionMenuItem
  actionMenuSelectedIdx : Int
  previousFocusView : String
  isFileContentViewVisible : Bool
  fileContentViewFileName : String
  fileContentViewContent : String
  fileContentViewTotalLines : Int
  fileContentViewOriginY : Int
  fileContentViewPrevFocus : String
  helpVisible : Bool
  confirmDeleteVisible : Bool
  itemToDelete : Option FileInfo
  lastMessage : String
deriving DecidableEq, Repr

/-- View name constants from ui.go. -/
def viewFolders : String := "folders"

/-- View name constants from ui.go. -/
def viewFiles : String := "files"

/-- View name constants from ui.go. -/
def viewActionMenu : String := "actionMenu"

/-- View name constants from ui.go. -/
def viewFileContent : String := "fileContent"

/-- `NewAppState` from state.go; fields the Go constructor does not list
take Go's zero values (empty slices and strings, `false`, `0`, `nil`). -/
def NewAppState (cwd : String) : AppState where
  cwd := cwd
  visibleFiles := []
  visibleDirs := []
  hiddenFiles := []
  hiddenDirs := []
  showHidden := false
  totalSize := -1
  largestFile := ⟨"", "", false, 0⟩
  gitStatus := "Checking..."
  isLoadingStats := true
  statsError := none
  visibleFoldersOriginY := 0
  visibleFilesOriginY := 0
  hiddenFoldersOriginY := 0
  hiddenFilesOriginY := 0
  visibleFoldersCursorY := 0
  visibleFilesCursorY := 0
  hiddenFoldersCursorY := 0
  hiddenFilesCursorY := 0
  isActionMenuVisible := false
  actionMenuItemTarget := ⟨"", "", false, 0⟩
  actionMenuOptions := []
  actionMenuSelectedIdx := 0
  previousFocusView := ""
  isFileContentViewVisible := false
  fileContentViewFileName := ""
  fileContentViewContent := ""
  fileContentViewTotalLines := 0
  fileContentViewOriginY := 0
  fileContentViewPrevFocus := ""
  helpVisible := false
  confirmDeleteVisible := false
  itemToDelete := none
  lastMessage := ""

/-- `GetCurrentCursorY` from state.go (switch on view name, keyed by the
hidden flag; unknown views return 0). -/
def GetCurrentCursorY (viewName : String) (s : AppState) : Int :=
  if viewName = viewFolders then
    (if s.showHidden then s.hiddenFoldersCursorY else s.visibleFoldersCursorY)
  else if viewName = viewFiles then
    (if s.showHidden then s.hiddenFilesCursorY else s.visibleFilesCursorY)
  else 0

/-- `GetCurrentList` from state.go (the Go method returns a copy; value
semantics make the copy implicit here; unknown views return nil). -/
def GetCurrentList (viewName : String) (s : AppState) : List FileInfo :=
  if viewName = viewFolders then
    (if s.showHidden then s.hiddenDirs else s.visibleDirs)
  else if viewName = viewFiles then
    (if s.showHidden then s.hiddenFiles else s.visibleFiles)
  else []

/-- `SetStatsLoading` from state.go. -/
def SetStatsLoading (s : AppState) : AppState :=
  { s with isLoadingStats := true
           gitStatus := "Calculating..."
           totalSize := -1
           largestFile := ⟨"", "", false, 0⟩
           statsError := none }

/-- `SetStatsResults` from state.go: installs the results, then forces
the -2 error sentinel when an error is present and the stored size was
not already -2. -/
def SetStatsResults (totalSize : Int) (largestFile : FileInfo) (gitStatus : String)
    (err : Option GoErr) (s : AppState) : AppState :=
  let s1 := { s with totalSize := totalSize
                     largestFile := largestFile
                     gitStatus := gitStatus
                     isLoadingStats := false
                     statsError := err }
  if err ≠ none ∧ s1.totalSize ≠ -2 then { s1 with totalSize := -2 } else s1

/-- `SetMessage` from state.go. -/
def SetMessage (msg : String) (s : AppState) : AppState :=
  { s with lastMessage := msg }

/-- `ClearMessage` from state.go. -/
def ClearMessage (s : AppState) : AppState :=
  { s with lastMessage := "" }

/-- `OpenActionMenu` from state.go. -/
def OpenActionMenu (item : FileInfo) (options : List ActionMenuItem)
    (currentFocusView : String) (s : AppState) : AppState :=
  { s with isActionMenuVisible := true
           actionMenuItemTarget := item
           actionMenuOptions := options
           actionMenuSelectedIdx := 0
           previousFocusView := currentFocusView
           lastMessage := "" }

/-- `CloseActionMenu` from state.go (`previousFocusView` is kept). -/
def CloseActionMenu (s : AppState) : AppState :=
  { s with isActionMenuVisible := false
           actionMenuItemTarget := ⟨"", "", false, 0⟩
           actionMenuOptions := []
           actionMenuSelectedIdx := -1 }

/-- `NavigateActionMenu` from state.go: no-op when the menu is hidden or
has no options; otherwise the index moves by `delta` and wraps at both
ends. -/
def NavigateActionMenu (delta : Int) (s : AppState) : AppState :=
  if ¬s.isActionMenuVisible ∨ s.actionMenuOptions.length = 0 then s
  else
    let idx0 := s.actionMenuSelectedIdx + delta
    let idx1 := if idx0 < 0 then (s.actionMenuOptions.length : Int) - 1 else idx0
    let idx2 := if idx1 ≥ (s.actionMenuOptions.length : Int) then 0 else idx1
    { s with actionMenuSelectedIdx := idx2 }

/-- `strings.Count(content, "\n")`: the pattern is a single character, so
this is the number of newline characters of the text. -/
def countNewlines (content : String) : Nat :=
  content.toList.count '\n'

/-- `strings.HasSuffix(content, "\n")`: true exactly when the last
character is a newline. -/
def hasSuffixNewline (content : String) : Bool :=
  content.toList.getLast? == some '\n'

/-- `SetFileContentView` from state.go, including its derivation of
`fileContentViewTotalLines` from the text. -/
def SetFileContentView (filename content prevFocus : String) (s : AppState) : AppState :=
  let tl0 : Int := countNewlines content
  let tl : Int :=
    if hasSuffixNewline content = false ∧ 0 < content.length then tl0 + 1
    else if content.length = 0 then 1
    else tl0
  { s with isFileContentViewVisible := true
           fileContentViewFileName := filename
           fileContentViewContent := content
           fileContentViewTotalLines := tl
           fileContentViewOriginY := 0
           fileContentViewPrevFocus := prevFocus }

/-- The tab expansion `strings.ReplaceAll(content, "\t", "    ")` done by
`viewFileContentAction` in handlers.go. -/
def replaceTabs : List Char → List Char
  | [] => []
  | ch :: rest =>
    if ch = '\t' then ' ' :: ' ' :: ' ' :: ' ' :: replaceTabs rest
    else ch :: replaceTabs rest

/-- The null-byte scan of `viewFileContentAction` (handlers.go lines
627-634) over the raw bytes, modelled on the decoded text. -/
def containsNulByte (content : String) : Bool :=
  content.toList.contains (Char.ofNat 0)

/-- The content-decoding part of `viewFileContentAction` (handlers.go
lines 625-646): `none` is the empty-file result of `ReadFileWithLimit`;
binary content is rejected; tabs are expanded. -/
def decodeViewContent (contentBytes : Option String) : Except GoErr String :=
  match contentBytes with
  | some bytes =>
    if containsNulByte bytes then Except.error (.base "cannot display binary file content")
    else Except.ok (String.mk (replaceTabs bytes.toList))
  | none => Except.ok "[Empty File]"

/-- `viewFileContentAction` from handlers.go.  The bounded file read is
an external collaborator and enters as `readResult`; on success the
function installs the content view using the focus recorded when the
action menu was opened (`previousFocusView`), falling back to the
folders view when that record is empty. -/
def viewFileContentAction (item : FileInfo) (readResult : Except GoErr (Option String))
    (s : AppState) : Except GoErr AppState :=
  if item.IsDir then Except.error (.base "cannot view content of a directory")
  else
    match readResult with
    | .error e => Except.error e
    | .ok contentBytes =>
      match decodeViewContent contentBytes with
      | .error e => Except.error e
      | .ok content =>
        let currentFocus := if s.previousFocusView = "" then viewFolders else s.previousFocusView
        Except.ok (SetFileContentView item.Name content currentFocus s)

/-- The success path of `handleMenuSelect` for the "View Content" option
(handlers.go lines 384-419): `closeMenuFirst` is false for this label, so
the action runs on the open-menu state, and on success the menu is closed
and the message cleared in the same update.  The failure branch is not
needed by any claim and yields `none`. -/
def handleMenuSelectViewContentOk (readResult : Except GoErr (Option String))
    (s : AppState) : Option AppState :=
  match viewFileContentAction s.actionMenuItemTarget readResult s with
  | .ok s1 => some (ClearMessage (CloseActionMenu s1))
  | .error _ => none

/-- `handleEnter` from handlers.go: bounds checks, then opens the action
menu on the selected item with path-copy options always present, the two
content options only for non-directories, and "Cancel" last. -/
def handleEnter (viewName : String) (s : AppState) : AppState :=
  let currentList := GetCurrentList viewName s
  let cursorY := GetCurrentCursorY viewName s
  if currentList.length = 0 then s
  else if cursorY < 0 ∨ cursorY ≥ (currentList.length : Int) then s
  else
    match currentList.get? cursorY.toNat with
    | some selectedItem =>
      let options0 := [ActionMenuItem.mk "Copy Full Path", ActionMenuItem.mk "Copy Relative Path"]
      let options1 :=
        if selectedItem.IsDir = false then
          options0 ++ [ActionMenuItem.mk "View Content", ActionMenuItem.mk "Copy Content (UTF-8)"]
        else options0
      let options := options1 ++ [ActionMenuItem.mk "Cancel"]
      if 0 < options.length then OpenActionMenu selectedItem options viewName s else s
    | none => s

/-- An abstract file-system subtree for the scanner: a file carries its
size and an optional `Info()` failure; a directory carries an optional
read failure (in which case its entries are unreachable) and its
children in traversal order. -/
inductive FsNode where
  | file (name : String) (size : Int) (infoErr : Option GoErr)
  | dir (name : String) (readErr : Option GoErr) (entries : List FsNode)

/-- The mutable accumulator of the `calculateStats` walk (core.go lines
187-190): running total, best largest-file candidate (size -1 until one
is found), and the first traversal error seen. -/
structure WalkAcc where
  totalSize : Int
  largestFile : FileInfo
  firstWalkErr : Option GoErr
deriving DecidableEq, Repr

/-- `if firstWalkErr == nil { firstWalkErr = e }`: only the first error
is kept. -/
def recordFirstErr (acc : Option GoErr) (e : GoErr) : Option GoErr :=
  match acc with
  | none => some e
  | some e0 => some e0

mutual

/-- The `filepath.WalkDir` traversal of core.go lines 193-244, driving
the embedded callback per `WalkDir`'s documented contract: every entry is
visited in order; a file entry adds its size to the total and replaces
the largest-file record on a strictly larger size (an `Info()` failure
records a first error `info for <name>` instead); a directory whose read
fails triggers a second callback call with the error, which records a
first error `accessing <name>` and returns `SkipDir`, so its contents are
excluded while later siblings are still walked. -/
def walkEntry (parentPath : String) (acc : WalkAcc) : FsNode → WalkAcc
  | .file name size infoErr =>
    match infoErr with
    | some e => { acc with firstWalkErr := recordFirstErr acc.firstWalkErr (.infoFor name e) }
    | none =>
      { totalSize := acc.totalSize + size
        largestFile :=
          if size > acc.largestFile.Size then
            ⟨name, parentPath ++ "/" ++ name, false, size⟩
          else acc.largestFile
        firstWalkErr := acc.firstWalkErr }
  | .dir name readErr entries =>
    match readErr with
    | some e => { acc with firstWalkErr := recordFirstErr acc.firstWalkErr (.accessing name e) }
    | none => walkEntries (parentPath ++ "/" ++ name) acc entries

/-- Fold `walkEntry` over sibling entries in order. -/
def walkEntries (parentPath : String) (acc : WalkAcc) : List FsNode → WalkAcc
  | [] => acc
  | e :: rest => walkEntries parentPath (walkEntry parentPath acc e) rest

end

/-- The whole walk of `calculateStats` (core.go lines 187-249) on the
root directory: the callback skips the root itself (`path == cwd`), then
the children are walked; a root read failure records `accessing <root>`.
The callback never returns an error other than `SkipDir`, so the value
`WalkDir` itself returns is always `nil` and line 247's fallback never
fires. -/
def calculateStatsWalk (cwd : String) (root : FsNode) : WalkAcc :=
  let acc0 : WalkAcc := ⟨0, ⟨"", "", false, -1⟩, none⟩
  match root with
  | .dir _ none entries => walkEntries cwd acc0 entries
  | .dir name (some e) _ => { acc0 with firstWalkErr := some (.accessing name e) }
  | .file _ _ _ => acc0

/-- The post-walk commit of `calculateStats` (core.go lines 252-267 and
296): any traversal error forces the -2 size sentinel; the largest-file
record is kept if one was found, replaced by an explicit marker (error
case) or the empty `FileInfo` (no files) otherwise; the git status is an
external query result and enters as a parameter. -/
def calculateStatsCommit (acc : WalkAcc) (gitStatus : String) (s : AppState) : AppState :=
  let finalTotalSize := if acc.firstWalkErr ≠ none then -2 else acc.totalSize
  let finalLargestFile :=
    if acc.firstWalkErr ≠ none then
      (if acc.largestFile.Size = -1 then ⟨"Error during scan", "", false, -2⟩
       else acc.largestFile)
    else
      (if acc.largestFile.Size = -1 then ⟨"", "", false, 0⟩ else acc.largestFile)
  SetStatsResults finalTotalSize finalLargestFile gitStatus acc.firstWalkErr s

/-- `calculateStats` from core.go as a state transformation: mark
loading, walk the tree rooted at the state's working directory, commit. -/
def calculateStatsModel (root : FsNode) (gitStatus : String) (s : AppState) : AppState :=
  calculateStatsCommit (calculateStatsWalk s.cwd root) gitStatus (SetStatsLoading s)

/-- The C3 scenario tree: three readable files of sizes 10, 500 and 2000
bytes and one unreadable subdirectory (placed between them so that later
siblings demonstrably keep being walked; its hidden content is excluded
from the total). -/
def scenarioTree : FsNode :=
  .dir "testdir" none
    [ .file "a.txt" 10 none,
      .dir "locked" (some (.base "permission denied")) [.file "secret.dat" 99999 none],
      .file "b.txt" 500 none,
      .file "big.txt" 2000 none ]

/-- The state committed by `calculateStats` on the C3 scenario. -/
def scenarioResult : AppState :=
  calculateStatsModel scenarioTree "Inactive" (NewAppState "/scan")

/-- A concrete file entry for witnesses. -/
def exampleFileItem : FileInfo := ⟨"a.txt", "/r/a.txt", false, 0⟩

/-- A fresh state whose visible-files list holds one file. -/
def exampleFileListState : AppState :=
  { NewAppState "/r" with visibleFiles := [exampleFileItem] }

/-- A concrete directory entry for witnesses. -/
def exampleDirItem : FileInfo := ⟨"sub", "/r/sub", true, 0⟩

/-- A fresh state whose visible-directories list holds one directory. -/
def exampleDirListState : AppState :=
  { NewAppState "/r" with visibleDirs := [exampleDirItem] }

/-- An open menu with three options, last one selected. -/
def exampleMenuStateLast : AppState :=
  { NewAppState "/r" with isActionMenuVisible := true
                          actionMenuOptions := [⟨"A"⟩, ⟨"B"⟩, ⟨"C"⟩]
                          actionMenuSelectedIdx := 2 }

/-- An open menu with three options, first one selected. -/
def exampleMenuStateFirst : AppState :=
  { NewAppState "/r" with isActionMenuVisible := true
                          actionMenuOptions := [⟨"A"⟩, ⟨"B"⟩, ⟨"C"⟩]
                          actionMenuSelectedIdx := 0 }

/-- A fresh state; its menu is hidden. -/
def exampleMenuHidden : AppState := NewAppState "/r"

/-- The menu opened on the example file with focus on the files view. -/
def exampleMenuOpenState : AppState :=
  OpenActionMenu exampleFileItem
    [⟨"Copy Full Path"⟩, ⟨"Copy Relative Path"⟩, ⟨"View Content"⟩,
     ⟨"Copy Content (UTF-8)"⟩, ⟨"Cancel"⟩]
    viewFiles exampleFileListState

/-- The state after a successful "View Content" on the example menu. -/
def exampleViewerState : AppState :=
  (handleMenuSelectViewContentOk (Except.ok (some "hi")) exampleMenuOpenState).getD
    (NewAppState "/r")

/-- Projection reduction helper for `VPState` literals. -/
theorem VPState_cursor_mk (c o : Int) : (VPState.mk c o).cursor = c := rfl

/-- Projection reduction helper for `VPState` literals. -/
theorem VPState_origin_mk (c o : Int) : (VPState.mk c o).origin = o := rfl

/-- Componentwise characterisation of equality of `(pair, changed)`
results, used to turn result equalities into arithmetic goals. -/
theorem prodVP_eq_iff (a b : VPState) (x y : Bool) :
    ((a, x) = (b, y)) ↔
      (a.cursor = b.cursor ∧ a.origin = b.origin ∧ (x = true ↔ y = true)) := by
  obtain ⟨ac, ao⟩ := a
  obtain ⟨bc, bo⟩ := b
  simp only [Prod.mk.injEq, VPState.mk.injEq, VPState_cursor_mk, VPState_origin_mk]
  constructor
  · rintro ⟨⟨rfl, rfl⟩, rfl⟩
    exact ⟨rfl, rfl, Iff.rfl⟩
  · rintro ⟨rfl, rfl, hxy⟩
    refine ⟨⟨rfl, rfl⟩, ?_⟩
    cases x <;> cases y <;> simp_all

/-- For `h ≥ 1`, Go's truncating division `h / 2` is nonnegative and at
most `h - 1`. -/
theorem tdiv_two_bounds (h : Int) (hh : 1 ≤ h) :
    0 ≤ Int.tdiv h 2 ∧ Int.tdiv h 2 ≤ h - 1 := by
  obtain ⟨n, rfl⟩ : ∃ n : ℕ, h = (n : Int) := ⟨h.toNat, (Int.toNat_of_nonneg (by omega)).symm⟩
  rw [show Int.tdiv ((n : Int)) 2 = ((n / 2 : ℕ) : Int) from (Int.ofNat_tdiv n 2).symm]
  have hn : 1 ≤ n := by exact_mod_cast hh
  constructor
  · exact_mod_cast Nat.zero_le _
  · have : n / 2 ≤ n - 1 := by omega
    omega

/-- `moveCursorAndOriginCore` preserves the viewport invariant. -/
theorem moveCursorAndOriginCore_preserves (listLen viewHeight : Int) (st : VPState)
    (delta : Int) (hlen : 0 ≤ listLen) (hh : 1 ≤ viewHeight)
    (hinv : NavInv listLen viewHeight st) :
    NavInv listLen viewHeight (moveCursorAndOriginCore listLen viewHeight st delta).1 := by
  obtain ⟨hempty, hfull⟩ := hinv
  unfold moveCursorAndOriginCore
  split
  · exact ⟨fun _ => ⟨rfl, rfl⟩, fun hpos => by omega⟩
  · rename_i hl
    have hpos : 0 < listLen := by omega
    obtain ⟨hc0, hc1, ho1, ho2, ho3, ho4⟩ := hfull hpos
    unfold NavInv
    dsimp only
    refine ⟨fun h0 => absurd h0 hl, fun _ => ?_⟩
    split_ifs <;> omega

/-- `setCursorAndOriginCore` preserves the viewport invariant. -/
theorem setCursorAndOriginCore_preserves (listLen viewHeight : Int) (st : VPState)
    (target : Int) (hlen : 0 ≤ listLen) (hh : 1 ≤ viewHeight)
    (hinv : NavInv listLen viewHeight st) :
    NavInv listLen viewHeight (setCursorAndOriginCore listLen viewHeight st target).1 := by
  obtain ⟨hempty, hfull⟩ := hinv
  obtain ⟨hdiv0, hdiv1⟩ := tdiv_two_bounds viewHeight hh
  unfold setCursorAndOriginCore
  split
  · exact ⟨fun _ => ⟨rfl, rfl⟩, fun hpos => by omega⟩
  · rename_i hl
    have hpos : 0 < listLen := by omega
    obtain ⟨hc0, hc1, ho1, ho2, ho3, ho4⟩ := hfull hpos
    unfold NavInv
    dsimp only
    refine ⟨fun h0 => absurd h0 hl, fun _ => ?_⟩
    split_ifs <;> omega

/-- C1: for every list length ≥ 0 and viewport height ≥ 1, starting from
the reset state (cursor 0, origin 0), after any sequence of
`moveCursorAndOrigin` (moveBy) and `setCursorAndOrigin` (jumpTo) calls
the stored pair satisfies: 0 ≤ cursor < length (both 0 when length = 0),
origin ≤ cursor ≤ origin + height - 1, and
0 ≤ origin ≤ max 0 (length - height). -/
theorem C1_viewport_invariant (listLen viewHeight : Int) (ops : List NavOp)
    (hlen : 0 ≤ listLen) (hh : 1 ≤ viewHeight) :
    NavInv listLen viewHeight (runNavOps listLen viewHeight ops) := by
  have hstep : ∀ (st : VPState) (op : NavOp), NavInv listLen viewHeight st →
      NavInv listLen viewHeight (applyNavOp listLen viewHeight st op) := by
    intro st op hst
    cases op with
    | move d => exact moveCursorAndOriginCore_preserves listLen viewHeight st d hlen hh hst
    | jump t => exact setCursorAndOriginCore_preserves listLen viewHeight st t hlen hh hst
  have hbase : NavInv listLen viewHeight ⟨0, 0⟩ := by
    unfold NavInv
    refine ⟨fun _ => ⟨rfl, rfl⟩, fun hpos => ?_⟩
    simp only [VPState_cursor_mk, VPState_origin_mk]
    exact ⟨le_rfl, hpos, le_rfl, by omega, le_rfl, le_max_iff.mpr (Or.inl le_rfl)⟩
  have hfold : ∀ (l : List NavOp) (st : VPState), NavInv listLen viewHeight st →
      NavInv listLen viewHeight (l.foldl (applyNavOp listLen viewHeight) st) := by
    intro l
    induction l with
    | nil => intro st hst; exact hst
    | cons op rest ih => intro st hst; exact ih _ (hstep st op hst)
  exact hfold ops ⟨0, 0⟩ hbase

/-- C1 witness: a concrete run (length 5, height 2) of moves and jumps
from the reset state lands inside the invariant. -/
theorem C1_viewport_invariant_witness :
    (0 : Int) ≤ 5 ∧ (1 : Int) ≤ 2 ∧
      NavInv 5 2 (runNavOps 5 2 [NavOp.move 3, NavOp.jump 0, NavOp.move (-1)]) :=
  ⟨by decide, by decide,
    C1_viewport_invariant 5 2 [NavOp.move 3, NavOp.jump 0, NavOp.move (-1)]
      (by decide) (by decide)⟩

/-- C9: from any state satisfying the viewport invariant (every state the
program can reach, by C1), `moveCursorAndOrigin` with delta 0 leaves the
pair unchanged and returns `changed = false`. -/
theorem C9_moveBy_zero_noop (listLen viewHeight : Int) (st : VPState)
    (hlen : 0 ≤ listLen) (hh : 1 ≤ viewHeight)
    (hinv : NavInv listLen viewHeight st) :
    moveCursorAndOriginCore listLen viewHeight st 0 = (st, false) := by
  obtain ⟨hempty, hfull⟩ := hinv
  obtain ⟨c, o⟩ := st
  simp only [VPState_cursor_mk, VPState_origin_mk] at hempty hfull
  unfold moveCursorAndOriginCore
  split
  · rename_i hl
    obtain ⟨rfl, rfl⟩ := hempty hl
    simp
  · rename_i hl
    have hpos : 0 < listLen := by omega
    obtain ⟨hc0, hc1, ho1, ho2, ho3, ho4⟩ := hfull hpos
    have ho4' := le_max_iff.mp ho4
    clear ho4 hempty hfull
    split_ifs <;>
      (simp only [prodVP_eq_iff, VPState_cursor_mk, VPState_origin_mk,
        Bool.or_eq_true, bne_iff_ne, Bool.false_eq_true, iff_false, not_or,
        true_and, and_true]
       omega)

/-- C9 witness: a concrete invariant-satisfying state (length 5, height 2,
cursor 3, origin 2) on which a delta-0 move is a no-op. -/
theorem C9_moveBy_zero_noop_witness :
    (0 : Int) ≤ 5 ∧ (1 : Int) ≤ 2 ∧ NavInv 5 2 ⟨3, 2⟩ ∧
      moveCursorAndOriginCore 5 2 ⟨3, 2⟩ 0 = (⟨3, 2⟩, false) :=
  ⟨by decide, by decide, by decide,
    C9_moveBy_zero_noop 5 2 ⟨3, 2⟩ (by decide) (by decide) (by decide)⟩

/-- C4 counterexample: `moveCursorAndOrigin` with viewport height 0 does
not behave as with height 1.  On a 2-element list at cursor 0 / origin 0
with delta 0, height 0 yields `(⟨0, 1⟩, true)` while height 1 yields
`(⟨0, 0⟩, false)` — neither function clamps the height; the
`viewHeight ≤ 0 → 1` clamp exists only in the rendering layer
(`updateListView` in ui.go). -/
theorem C4_counterexample :
    moveCursorAndOriginCore 2 0 ⟨0, 0⟩ 0 ≠ moveCursorAndOriginCore 2 1 ⟨0, 0⟩ 0 := by
  intro h
  have e1 : (moveCursorAndOriginCore 2 0 (⟨0, 0⟩ : VPState) 0).2 = true := rfl
  have e2 : (moveCursorAndOriginCore 2 1 (⟨0, 0⟩ : VPState) 0).2 = false := rfl
  rw [h, e2] at e1
  exact Bool.false_ne_true e1

/-- For heights 1, 0 and -1 on a non-empty list, `setCursorAndOrigin`
re-centers the origin exactly onto the clamped target cursor. -/
theorem setCore_h_small (listLen h : Int) (st : VPState) (target : Int)
    (hl : 0 < listLen) (hh : h = 1 ∨ h = 0 ∨ h = -1) :
    setCursorAndOriginCore listLen h st target =
      (⟨goClampIndex listLen target, goClampIndex listLen target⟩,
       st.cursor != goClampIndex listLen target ||
         st.origin != goClampIndex listLen target) := by
  obtain ⟨c, o⟩ := st
  unfold setCursorAndOriginCore goClampIndex
  rw [if_neg (by omega)]
  rcases hh with rfl | rfl | rfl <;>
  · simp only [VPState_cursor_mk, VPState_origin_mk,
      show Int.tdiv 1 2 = 0 from rfl, show Int.tdiv 0 2 = 0 from rfl,
      show Int.tdiv (-1) 2 = 0 from rfl, Int.sub_zero]
    split_ifs <;>
      first
      | rfl
      | (simp only [prodVP_eq_iff, VPState_cursor_mk, VPState_origin_mk,
          Bool.or_eq_true, bne_iff_ne, Bool.false_eq_true, iff_false, not_or,
          true_and, and_true]
         omega)

/-- C4 amended: neither `moveCursorAndOrigin` nor `setCursorAndOrigin`
clamps a non-positive viewport height (the `≤ 0 → 1` clamp lives in the
rendering layer); `moveCursorAndOrigin` with height ≤ 0 can differ from
height 1 (see the counterexample), while `setCursorAndOrigin` with
height 0 or -1 does coincide with height 1 for every state and target. -/
theorem C4_amended_jumpTo_height (listLen h : Int) (st : VPState) (target : Int)
    (hh : h = 0 ∨ h = -1) :
    setCursorAndOriginCore listLen h st target =
      setCursorAndOriginCore listLen 1 st target := by
  by_cases hl : listLen ≤ 0
  · unfold setCursorAndOriginCore
    rw [if_pos hl, if_pos hl]
  · have hl' : 0 < listLen := by omega
    rw [setCore_h_small listLen h st target hl' (by tauto),
        setCore_h_small listLen 1 st target hl' (by tauto)]

/-- C4 amended witness: concrete agreement of heights 0 and 1 for a jump
on a 5-element list. -/
theorem C4_amended_jumpTo_height_witness :
    ((0 : Int) = 0 ∨ (0 : Int) = -1) ∧
      setCursorAndOriginCore 5 0 ⟨2, 1⟩ 4 = setCursorAndOriginCore 5 1 ⟨2, 1⟩ 4 :=
  ⟨Or.inl rfl, C4_amended_jumpTo_height 5 0 ⟨2, 1⟩ 4 (Or.inl rfl)⟩

/-- C2: whenever `SetStatsResults` (commitScan) is called with a non-nil
error, the stored total size afterwards is the error sentinel -2, for
every `totalSize` value the caller passes. -/
theorem C2_commitScan_error_sentinel (totalSize : Int) (largestFile : FileInfo)
    (gitStatus : String) (e : GoErr) (s : AppState) :
    (SetStatsResults totalSize largestFile gitStatus (some e) s).totalSize = -2 := by
  unfold SetStatsResults
  by_cases hts : totalSize = -2
  · subst hts
    simp
  · simp [hts]

/-- C3: on a directory with three readable files of sizes 10, 500 and
2000 bytes and one unreadable subdirectory, the committed result has
total size -2 (the error sentinel), largest file the 2000-byte file (the
errored subtree is skipped, its contents excluded, siblings still
walked), and the recorded error is the first traversal error, referencing
the unreadable subdirectory by name. -/
theorem C3_scan_error_scenario :
    scenarioResult.totalSize = -2 ∧
    scenarioResult.largestFile.Name = "big.txt" ∧
    scenarioResult.largestFile.Size = 2000 ∧
    scenarioResult.statsError =
      some (GoErr.accessing "locked" (GoErr.base "permission denied")) :=
  ⟨rfl, rfl, rfl, rfl⟩

/-- C10: every call to `OpenActionMenu` clears the transient message and
resets the menu's selected index to 0. -/
theorem C10_openMenu_resets (item : FileInfo) (options : List ActionMenuItem)
    (focus : String) (s : AppState) :
    (OpenActionMenu item options focus s).lastMessage = "" ∧
      (OpenActionMenu item options focus s).actionMenuSelectedIdx = 0 :=
  ⟨rfl, rfl⟩

/-- C7: menu navigation wraps — with the menu visible and n > 0 options,
`NavigateActionMenu 1` at index n-1 selects 0 and `NavigateActionMenu
(-1)` at index 0 selects n-1; with the menu hidden or the option list
empty, `NavigateActionMenu` leaves the state unchanged. -/
theorem C7_menu_navigation_wrap (s : AppState) (d : Int) :
    (s.isActionMenuVisible = true →
      0 < s.actionMenuOptions.length →
      (s.actionMenuSelectedIdx = (s.actionMenuOptions.length : Int) - 1 →
        (NavigateActionMenu 1 s).actionMenuSelectedIdx = 0) ∧
      (s.actionMenuSelectedIdx = 0 →
        (NavigateActionMenu (-1) s).actionMenuSelectedIdx =
          (s.actionMenuOptions.length : Int) - 1)) ∧
    (s.isActionMenuVisible = false ∨ s.actionMenuOptions.length = 0 →
      NavigateActionMenu d s = s) := by
  constructor
  · intro hvis hlen
    have hcond : ¬(¬s.isActionMenuVisible ∨ s.actionMenuOptions.length = 0) := by
      rintro (hno | h0)
      · exact hno hvis
      · omega
    constructor
    · intro hidx
      unfold NavigateActionMenu
      rw [if_neg hcond]
      simp only [hidx]
      split_ifs <;> first | rfl | omega
    · intro hidx
      unfold NavigateActionMenu
      rw [if_neg hcond]
      simp only [hidx]
      split_ifs <;> first | rfl | omega
  · intro hno
    unfold NavigateActionMenu
    rw [if_pos ?_]
    rcases hno with h | h
    · exact Or.inl (by simp [h])
    · exact Or.inr h

/-- C7 witness: concrete wrap-around at both ends of a three-option menu
and a concrete no-op on a hidden menu. -/
theorem C7_menu_navigation_wrap_witness :
    (NavigateActionMenu 1 exampleMenuStateLast).actionMenuSelectedIdx = 0 ∧
    (NavigateActionMenu (-1) exampleMenuStateFirst).actionMenuSelectedIdx =
      (exampleMenuStateFirst.actionMenuOptions.length : Int) - 1 ∧
    NavigateActionMenu 5 exampleMenuHidden = exampleMenuHidden :=
  ⟨((C7_menu_navigation_wrap exampleMenuStateLast 5).1 rfl (by decide)).1 (by decide),
   ((C7_menu_navigation_wrap exampleMenuStateFirst 5).1 rfl (by decide)).2 rfl,
   (C7_menu_navigation_wrap exampleMenuHidden 5).2 (Or.inl rfl)⟩

/-- A Go `len(content) == 0` test is the same as emptiness of the string. -/
theorem string_length_eq_zero_iff (content : String) :
    content.length = 0 ↔ content = "" := by
  obtain ⟨data⟩ := content
  constructor
  · intro h0
    have hd : data = [] := List.length_eq_zero.mp h0
    rw [hd]
  · intro h0
    rw [h0]
    rfl

/-- C8: `SetFileContentView` stores total lines = newline count + 1 for
non-empty content without a trailing newline, = newline count for
non-empty content ending in a newline, and = 1 for empty content. -/
theorem C8_total_lines (filename content prevFocus : String) (s : AppState) :
    (content ≠ "" ∧ hasSuffixNewline content = false →
      (SetFileContentView filename content prevFocus s).fileContentViewTotalLines =
        (countNewlines content : Int) + 1) ∧
    (content ≠ "" ∧ hasSuffixNewline content = true →
      (SetFileContentView filename content prevFocus s).fileContentViewTotalLines =
        (countNewlines content : Int)) ∧
    (content = "" →
      (SetFileContentView filename content prevFocus s).fileContentViewTotalLines = 1) := by
  have hlen : content.length = 0 ↔ content = "" := string_length_eq_zero_iff content
  refine ⟨?_, ?_, ?_⟩
  · rintro ⟨hne, hsuf⟩
    have hpos : 0 < content.length := by
      rcases Nat.eq_zero_or_pos content.length with h0 | h0
      · exact absurd (hlen.mp h0) hne
      · exact h0
    unfold SetFileContentView
    dsimp only
    rw [if_pos ⟨hsuf, hpos⟩]
  · rintro ⟨hne, hsuf⟩
    have hpos : ¬content.length = 0 := fun h0 => hne (hlen.mp h0)
    unfold SetFileContentView
    dsimp only
    rw [if_neg (by rw [hsuf]; rintro ⟨hfalse, hdummy⟩; cases hfalse), if_neg hpos]
  · rintro rfl
    rfl

/-- C8 witness: the three line-count cases on concrete contents. -/
theorem C8_total_lines_witness :
    ((SetFileContentView "f" "ab\ncd" "files" (NewAppState "/r")).fileContentViewTotalLines =
      (countNewlines "ab\ncd" : Int) + 1) ∧
    ((SetFileContentView "f" "ab\n" "files" (NewAppState "/r")).fileContentViewTotalLines =
      (countNewlines "ab\n" : Int)) ∧
    ((SetFileContentView "f" "" "files" (NewAppState "/r")).fileContentViewTotalLines = 1) :=
  ⟨(C8_total_lines "f" "ab\ncd" "files" (NewAppState "/r")).1 ⟨by decide, by decide⟩,
   (C8_total_lines "f" "ab\n" "files" (NewAppState "/r")).2.1 ⟨by decide, by decide⟩,
   (C8_total_lines "f" "" "files" (NewAppState "/r")).2.2 rfl⟩

/-- C6 counterexample: on a file entry the copy-content option's label is
"Copy Content (UTF-8)", so the claimed option list (with plain "Copy
Content") is not the one the menu gets. -/
theorem C6_counterexample :
    (handleEnter viewFiles exampleFileListState).actionMenuOptions ≠
      [⟨"Copy Full Path"⟩, ⟨"Copy Relative Path"⟩, ⟨"View Content"⟩,
       ⟨"Copy Content"⟩, ⟨"Cancel"⟩] := by
  intro hcontra
  have e : (handleEnter viewFiles exampleFileListState).actionMenuOptions =
      [⟨"Copy Full Path"⟩, ⟨"Copy Relative Path"⟩, ⟨"View Content"⟩,
       ⟨"Copy Content (UTF-8)"⟩, ⟨"Cancel"⟩] := rfl
  rw [e] at hcontra
  exact absurd hcontra (by decide)

/-- C6 amended: `handleEnter` opens the menu with exactly "Copy Full
Path", "Copy Relative Path", "Cancel" (in that order) on a directory
entry, and with "View Content" and "Copy Content (UTF-8)" inserted
before "Cancel" on a file entry. -/
theorem C6_amended_menu_options (viewName : String) (s : AppState) (item : FileInfo)
    (h : (GetCurrentList viewName s).get? (GetCurrentCursorY viewName s).toNat = some item)
    (hc : 0 ≤ GetCurrentCursorY viewName s) :
    (item.IsDir = true → (handleEnter viewName s).actionMenuOptions =
      [⟨"Copy Full Path"⟩, ⟨"Copy Relative Path"⟩, ⟨"Cancel"⟩]) ∧
    (item.IsDir = false → (handleEnter viewName s).actionMenuOptions =
      [⟨"Copy Full Path"⟩, ⟨"Copy Relative Path"⟩, ⟨"View Content"⟩,
       ⟨"Copy Content (UTF-8)"⟩, ⟨"Cancel"⟩]) := by
  have hlt : (GetCurrentCursorY viewName s).toNat < (GetCurrentList viewName s).length := by
    have := List.get?_eq_some.mp h
    exact this.1
  have hcast : ((GetCurrentCursorY viewName s).toNat : Int) = GetCurrentCursorY viewName s :=
    Int.toNat_of_nonneg hc
  unfold handleEnter
  rw [if_neg (by omega), if_neg (by rintro (hbad | hbad) <;> omega), h]
  dsimp only
  constructor
  · intro hdir
    rw [if_neg (show ¬(item.IsDir = false) by rw [hdir]; simp)]
    rfl
  · intro hdir
    rw [if_pos hdir]
    rfl

/-- C6 amended witness: concrete menus for one directory entry and one
file entry. -/
theorem C6_amended_menu_options_witness :
    ((handleEnter viewFolders exampleDirListState).actionMenuOptions =
      [⟨"Copy Full Path"⟩, ⟨"Copy Relative Path"⟩, ⟨"Cancel"⟩]) ∧
    ((handleEnter viewFiles exampleFileListState).actionMenuOptions =
      [⟨"Copy Full Path"⟩, ⟨"Copy Relative Path"⟩, ⟨"View Content"⟩,
       ⟨"Copy Content (UTF-8)"⟩, ⟨"Cancel"⟩]) :=
  ⟨(C6_amended_menu_options viewFolders exampleDirListState exampleDirItem rfl
      (by decide)).1 rfl,
   (C6_amended_menu_options viewFiles exampleFileListState exampleFileItem rfl
      (by decide)).2 rfl⟩

/-- On success, `viewFileContentAction` installs as the viewer's
return-focus the `previousFocusView` recorded in the state (with the
folders fallback for an empty record), leaves the menu-visibility flag
untouched, and shows the viewer. -/
theorem viewFileContentAction_ok_shape (item : FileInfo)
    (readResult : Except GoErr (Option String)) (s s1 : AppState)
    (hok : viewFileContentAction item readResult s = Except.ok s1) :
    s1.fileContentViewPrevFocus =
      (if s.previousFocusView = "" then viewFolders else s.previousFocusView) ∧
    s1.isActionMenuVisible = s.isActionMenuVisible ∧
    s1.isFileContentViewVisible = true := by
  unfold viewFileContentAction at hok
  split at hok
  · exact Except.noConfusion hok
  · cases readResult with
    | error e => exact Except.noConfusion hok
    | ok contentBytes =>
      dsimp only at hok
      cases hd : decodeViewContent contentBytes with
      | error e =>
        rw [hd] at hok
        exact Except.noConfusion hok
      | ok content =>
        rw [hd] at hok
        obtain rfl := (Except.ok.inj hok).symm
        exact ⟨rfl, rfl, rfl⟩

/-- C5: when the menu was opened with `OpenActionMenu` capturing focus f,
a subsequent successful "View Content" stores f as the content viewer's
return focus (`fileContentViewPrevFocus`) — the focus recorded when the
menu opened — and the menu is closed in the same logical step. -/
theorem C5_view_content_return_focus (s : AppState) (item : FileInfo)
    (opts : List ActionMenuItem) (f : String)
    (readResult : Except GoErr (Option String)) (s2 : AppState)
    (hf : f ≠ "")
    (hok : handleMenuSelectViewContentOk readResult (OpenActionMenu item opts f s) = some s2) :
    s2.fileContentViewPrevFocus = f ∧ s2.isActionMenuVisible = false ∧
      s2.isFileContentViewVisible = true := by
  unfold handleMenuSelectViewContentOk at hok
  cases hv : viewFileContentAction (OpenActionMenu item opts f s).actionMenuItemTarget
      readResult (OpenActionMenu item opts f s) with
  | error e =>
    rw [hv] at hok
    exact Option.noConfusion hok
  | ok s1 =>
    rw [hv] at hok
    obtain rfl := (Option.some.inj hok).symm
    obtain ⟨h1, h2, h3⟩ := viewFileContentAction_ok_shape _ _ _ _ hv
    refine ⟨?_, rfl, h3⟩
    show s1.fileContentViewPrevFocus = f
    rw [h1]
    show (if f = "" then viewFolders else f) = f
    rw [if_neg hf]

/-- C5 witness: a concrete menu opened from the files view; after a
successful "View Content" the viewer's return focus is the files view,
the menu is closed and the viewer shown. -/
theorem C5_view_content_return_focus_witness :
    exampleViewerState.fileContentViewPrevFocus = viewFiles ∧
    exampleViewerState.isActionMenuVisible = false ∧
    exampleViewerState.isFileContentViewVisible = true :=
  C5_view_content_return_focus exampleFileListState exampleFileItem
    [⟨"Copy Full Path"⟩, ⟨"Copy Relative Path"⟩, ⟨"View Content"⟩,
     ⟨"Copy Content (UTF-8)"⟩, ⟨"Cancel"⟩]
    viewFiles (Except.ok (some "hi")) exampleViewerState (by decide) rfl

end LazyLs
